import Mathlib

/-!
Verification of the asteroids game core (python_asteroids)

A shallow embedding of the game-core logic of the repository:
asteroid splitting and scoring (`asteroid.py`), the score/combo system
(`game_state.py`), wave completion and asteroid-size selection
(`level_manager.py`), the player's ammo handling (`player.py`), and the
ammo power-up (`powerup.py`).

Modelling conventions:
* Python floats are embedded as `ℚ` where only field-by-field arithmetic
  and comparisons occur (radii, timers, multipliers), and as `ℝ` where
  trigonometry is involved (velocity rotation in `split`).
* Python `int(...)` truncation toward zero is `pytrunc`.
* Randomness (`random.uniform`, `random.random`, `random.choice`) is made
  explicit: each random draw becomes a parameter of the embedded function.
* `pygame.sprite.Sprite.kill()` (removal from the world's sprite groups)
  is modelled by an `alive : Bool` flag on the entity state.
* Mutation is modelled by explicit state passing: each method becomes a
  function from the old state (plus arguments) to the new state.
-/

/-! Section: Constants (`constants.py`) -/

/-- Constant `ASTEROID_MIN_RADIUS = 18` (constants.py line 4). -/
def ASTEROID_MIN_RADIUS : ℚ := 18

/-- Constant `ASTEROID_KINDS = 3` (constants.py line 5). -/
def ASTEROID_KINDS : ℕ := 3

/-- Constant `ASTEROID_MAX_RADIUS = ASTEROID_MIN_RADIUS * ASTEROID_KINDS * .60`
(constants.py line 7); numerically `32.4`. -/
def ASTEROID_MAX_RADIUS : ℚ := ASTEROID_MIN_RADIUS * (ASTEROID_KINDS : ℚ) * (60 / 100)

/-- Constant `SCORE_LARGE_ASTEROID = 100` (constants.py line 19). -/
def SCORE_LARGE_ASTEROID : ℤ := 100

/-- Constant `SCORE_MEDIUM_ASTEROID = 50` (constants.py line 20). -/
def SCORE_MEDIUM_ASTEROID : ℤ := 50

/-- Constant `SCORE_SMALL_ASTEROID = 25` (constants.py line 21). -/
def SCORE_SMALL_ASTEROID : ℤ := 25

/-- Constant `ARMORED_HITS_REQUIRED = 3` (constants.py line 47). -/
def ARMORED_HITS_REQUIRED : ℤ := 3

/-- Constant `AMMO_MAX_SHOTS = 80` (constants.py line 87). -/
def AMMO_MAX_SHOTS : ℤ := 80

/-- Constant `AMMO_INITIAL = 25` (constants.py line 88). -/
def AMMO_INITIAL : ℤ := 25

/-- Constant `AMMO_RECHARGE_RATE = 2.0` seconds (constants.py line 89). -/
def AMMO_RECHARGE_RATE : ℚ := 2

/-- Constant `AMMO_RECHARGE_AMOUNT = 3` (constants.py line 90). -/
def AMMO_RECHARGE_AMOUNT : ℤ := 3

/-- Constant `POWERUP_AMMO_AMOUNT = 5` (constants.py line 108). -/
def POWERUP_AMMO_AMOUNT : ℤ := 5

/-- Constant `PLAYER_SHOT_COUNTDOWN = 0.3` (constants.py line 14). -/
def PLAYER_SHOT_COUNTDOWN : ℚ := 3 / 10

/-- Constant `POWERUP_FIRE_RATE_MULTIPLIER = 0.3` (constants.py line 106). -/
def POWERUP_FIRE_RATE_MULTIPLIER : ℚ := 3 / 10

/-- Python `int(q)`: truncation toward zero. -/
def pytrunc (q : ℚ) : ℤ := if 0 ≤ q then ⌊q⌋ else -⌊-q⌋

/-! Section: 2D vectors (`pygame.Vector2`) -/

/-- A 2D vector with real components, as used for positions and velocities. -/
abbrev Vec2 : Type := ℝ × ℝ

/-- Rotation `pygame.Vector2.rotate(deg)`: rotation by an angle given in degrees. -/
noncomputable def rotateDeg (v : Vec2) (deg : ℝ) : Vec2 :=
  let a : ℝ := deg * Real.pi / 180
  (v.1 * Real.cos a - v.2 * Real.sin a, v.1 * Real.sin a + v.2 * Real.cos a)

/-- Scalar multiplication of a vector (`v * c` on a `pygame.Vector2`). -/
def vscale (c : ℝ) (v : Vec2) : Vec2 := (c * v.1, c * v.2)

/-! Section: Asteroids (`asteroid.py`) -/

/-- The three asteroid types, `ASTEROID_TYPE_REGULAR / _EXPLOSIVE / _ARMORED`
(constants.py lines 38-40). -/
inductive AsteroidType where
  | regular
  | explosive
  | armored
deriving DecidableEq

/-- The state of one `Asteroid` (asteroid.py): the fields the game logic
reads or writes.  Sprite/animation-only fields are omitted.  `alive`
models membership in the world's sprite groups (`kill()` clears it). -/
structure AsteroidState where
  position : Vec2
  velocity : Vec2
  radius : ℚ
  asteroid_kind : AsteroidType
  hits_remaining : ℤ
  alive : Bool

/-- Constructor `Asteroid.__init__(x, y, radius, asteroid_type)` (asteroid.py lines
122-148) restricted to the logic-relevant fields: armored asteroids start
with `ARMORED_HITS_REQUIRED` hits, all others with 1.  The velocity is
the one inherited from `CircleShape`, passed here explicitly. -/
def mkAsteroid (pos v : Vec2) (radius : ℚ) (t : AsteroidType) : AsteroidState :=
  { position := pos
    velocity := v
    radius := radius
    asteroid_kind := t
    hits_remaining := if t = AsteroidType.armored then ARMORED_HITS_REQUIRED else 1
    alive := true }

/-- The size-tier base score of `Asteroid._get_score_value` (asteroid.py
lines 200-208): large for `radius >= ASTEROID_MAX_RADIUS`, medium for
`radius >= ASTEROID_MIN_RADIUS * 2`, small otherwise. -/
def baseScore (radius : ℚ) : ℤ :=
  if ASTEROID_MAX_RADIUS ≤ radius then SCORE_LARGE_ASTEROID
  else if ASTEROID_MIN_RADIUS * 2 ≤ radius then SCORE_MEDIUM_ASTEROID
  else SCORE_SMALL_ASTEROID

/-- Method `Asteroid._get_score_value` (asteroid.py lines 198-216): base tier
score adjusted by type (`int(base * 1.5)` for explosive, `int(base * 2)`
for armored, unchanged for regular). -/
def scoreValue (radius : ℚ) (t : AsteroidType) : ℤ :=
  match t with
  | AsteroidType.explosive => pytrunc ((baseScore radius : ℚ) * (3 / 2))
  | AsteroidType.armored => pytrunc ((baseScore radius : ℚ) * 2)
  | AsteroidType.regular => baseScore radius

/-- The score value as the specification words it (spec §4.2 "Score value:
base tier by radius (three tiers against fixed thresholds) × type
multiplier (Explosive ×1.5, Armored ×2, Regular ×1), truncated to
integer").  Kept separate from `scoreValue` (which is translated from the
code) so that the two can be compared. -/
def specScoreValue (radius : ℚ) (t : AsteroidType) : ℤ :=
  let base : ℤ :=
    if ASTEROID_MAX_RADIUS ≤ radius then SCORE_LARGE_ASTEROID
    else if ASTEROID_MIN_RADIUS * 2 ≤ radius then SCORE_MEDIUM_ASTEROID
    else SCORE_SMALL_ASTEROID
  let mult : ℚ :=
    match t with
    | AsteroidType.explosive => 3 / 2
    | AsteroidType.armored => 2
    | AsteroidType.regular => 1
  pytrunc ((base : ℚ) * mult)

/-- Result of `Asteroid.split()` / `Asteroid.hit()`: whether the call
reported the asteroid destroyed, the asteroid's own updated state, and
the child asteroids created. -/
structure SplitResult where
  destroyed : Bool
  state : AsteroidState
  children : List AsteroidState

/-- Method `Asteroid.split()` (asteroid.py lines 423-488).  The asteroid always
`kill()`s itself; below `ASTEROID_MIN_RADIUS` no children are produced;
otherwise two children are created at the same position with radius
reduced by `ASTEROID_MIN_RADIUS`, one with the parent velocity rotated by
`angle` and scaled by 1.2, the other rotated by `-angle` unscaled.
`angle` is the draw of `random.uniform(20, 50)` and `newType` the child
type drawn at lines 475-479 (both children share it). -/
noncomputable def split (s : AsteroidState) (angle : ℝ) (newType : AsteroidType) :
    SplitResult :=
  let killed : AsteroidState := { s with alive := false }
  if s.radius < ASTEROID_MIN_RADIUS then
    { destroyed := true, state := killed, children := [] }
  else
    let v1 := vscale (12 / 10) (rotateDeg s.velocity angle)
    let v2 := rotateDeg s.velocity (-angle)
    let a1 := mkAsteroid s.position v1 (s.radius - ASTEROID_MIN_RADIUS) newType
    let a2 := mkAsteroid s.position v2 (s.radius - ASTEROID_MIN_RADIUS) newType
    { destroyed := true, state := killed, children := [a1, a2] }

/-- Result of `Asteroid.hit()`: the return value (`destroyed`), whether
`split()` was invoked, and the resulting states.  The explosive-type
projectile emission of `_explode()` has no effect on the asteroid state
and is not modelled. -/
structure HitResult where
  destroyed : Bool
  splitCalled : Bool
  state : AsteroidState
  children : List AsteroidState

/-- Method `Asteroid.hit()` (asteroid.py lines 349-390): armored asteroids first
decrement `hits_remaining`; while it stays positive the hit is absorbed
(`return False`) without splitting; otherwise (and for all other types)
the call falls through to `split()`. -/
noncomputable def hit (s : AsteroidState) (angle : ℝ) (newType : AsteroidType) :
    HitResult :=
  if s.asteroid_kind = AsteroidType.armored then
    let s1 : AsteroidState := { s with hits_remaining := s.hits_remaining - 1 }
    if 0 < s1.hits_remaining then
      { destroyed := false, splitCalled := false, state := s1, children := [] }
    else
      let r := split s1 angle newType
      { destroyed := r.destroyed, splitCalled := true, state := r.state,
        children := r.children }
  else
    let r := split s angle newType
    { destroyed := r.destroyed, splitCalled := true, state := r.state,
      children := r.children }

/-- Iterated `hit()` calls (the same random draws are re-used: they only
matter for the final, splitting call). -/
noncomputable def hitTimes (s : AsteroidState) (angle : ℝ) (newType : AsteroidType) :
    ℕ → AsteroidState
  | 0 => s
  | n + 1 => (hit (hitTimes s angle newType n) angle newType).state

/-! Section: Score system (`game_state.py`) -/

/-- The achievement kinds (`Achievement` enum, game_state.py lines 37-44). -/
inductive Achievement where
  | firstKill
  | comboMaster
  | levelComplete
  | ufoHunter
  | survivor
  | perfectWave
  | bossSlayer
deriving DecidableEq

/-- The display names used by `add_achievement` (game_state.py lines 187-195). -/
def achievementName (a : Achievement) : String :=
  match a with
  | Achievement.firstKill => "First Kill"
  | Achievement.comboMaster => "Combo Master"
  | Achievement.levelComplete => "Level Complete"
  | Achievement.ufoHunter => "UFO Hunter"
  | Achievement.survivor => "Survivor"
  | Achievement.perfectWave => "Perfect Wave"
  | Achievement.bossSlayer => "Boss Slayer"

/-- One entry of the high-score table: a record with a name, a score and
a date (game_state.py lines 85-91, 165-169). -/
structure HighScoreEntry where
  hsname : String
  score : ℤ
  date : String
deriving DecidableEq

/-- The full state of `ScoreSystem.__init__` (game_state.py lines 48-73).
Python's `set` of achievements is modelled as a duplicate-free list. -/
structure ScoreSystem where
  score : ℤ
  high_scores : List HighScoreEntry
  combo_count : ℕ
  combo_timer : ℚ
  combo_timeout : ℚ
  max_combo : ℕ
  base_multiplier : ℚ
  combo_multiplier : ℚ
  level_multiplier : ℚ
  achievements : List Achievement
  achievement_popup_timer : ℚ
  achievement_popup_text : String
  asteroids_destroyed : ℕ
  ufos_destroyed : ℕ
  time_survived : ℚ
  waves_completed : ℕ
  perfect_wave : Bool

/-- The default high-score table of `_load_high_scores` (game_state.py
lines 85-91), used when no `high_scores.json` file exists. -/
def defaultHighScores : List HighScoreEntry :=
  [ ⟨"AAA", 10000, "2025-01-01"⟩
  , ⟨"BBB", 8000, "2025-01-01"⟩
  , ⟨"CCC", 6000, "2025-01-01"⟩
  , ⟨"DDD", 4000, "2025-01-01"⟩
  , ⟨"EEE", 2000, "2025-01-01"⟩ ]

/-- Constructor `ScoreSystem.__init__` (game_state.py lines 48-73), with
`_load_high_scores` taking its missing-file default path. -/
def ScoreSystem.init : ScoreSystem :=
  { score := 0
    high_scores := defaultHighScores
    combo_count := 0
    combo_timer := 0
    combo_timeout := 3 / 2
    max_combo := 0
    base_multiplier := 1
    combo_multiplier := 1
    level_multiplier := 1
    achievements := []
    achievement_popup_timer := 0
    achievement_popup_text := ""
    asteroids_destroyed := 0
    ufos_destroyed := 0
    time_survived := 0
    waves_completed := 0
    perfect_wave := true }

/-- Method `ScoreSystem.add_achievement` (game_state.py lines 181-202): insert
the achievement if it is new and start the 3-second popup. -/
def ScoreSystem.addAchievement (s : ScoreSystem) (a : Achievement) : ScoreSystem :=
  if a ∈ s.achievements then s
  else
    { s with achievements := a :: s.achievements
             achievement_popup_text := "Achievement Unlocked: " ++ achievementName a
             achievement_popup_timer := 3 }

/-- Method `ScoreSystem.add_score(points, level_multiplier)` (game_state.py lines
101-135): accumulate `int(points * base * combo * level)` into the score,
advance the combo counter and timer, then recompute the combo multiplier
from the new combo count (awarding COMBO_MASTER in the `>= 5` branch). -/
def ScoreSystem.addScore (s : ScoreSystem) (points lm : ℚ) : ScoreSystem :=
  let adjusted : ℤ := pytrunc (points * (s.base_multiplier * s.combo_multiplier * lm))
  let newCount : ℕ := s.combo_count + 1
  let s1 : ScoreSystem :=
    { s with level_multiplier := lm
             score := s.score + adjusted
             combo_count := newCount
             combo_timer := s.combo_timeout
             max_combo := if s.max_combo < newCount then newCount else s.max_combo }
  if 10 ≤ newCount then { s1 with combo_multiplier := 4 }
  else if 7 ≤ newCount then { s1 with combo_multiplier := 3 }
  else if 5 ≤ newCount then
    ScoreSystem.addAchievement { s1 with combo_multiplier := 5 / 2 } Achievement.comboMaster
  else if 3 ≤ newCount then { s1 with combo_multiplier := 2 }
  else if 2 ≤ newCount then { s1 with combo_multiplier := 3 / 2 }
  else { s1 with combo_multiplier := 1 }

/-- Method `ScoreSystem.update(dt)` (game_state.py lines 137-156): count the
combo timer down (resetting the combo when it expires), run the popup
timer, accumulate survival time and award SURVIVOR at 300 seconds. -/
def ScoreSystem.update (s : ScoreSystem) (dt : ℚ) : ScoreSystem :=
  let s1 : ScoreSystem :=
    if 0 < s.combo_timer then
      let t := s.combo_timer - dt
      if t ≤ 0 then { s with combo_timer := t, combo_count := 0, combo_multiplier := 1 }
      else { s with combo_timer := t }
    else s
  let s2 : ScoreSystem :=
    if 0 < s1.achievement_popup_timer then
      { s1 with achievement_popup_timer := s1.achievement_popup_timer - dt }
    else s1
  let s3 : ScoreSystem := { s2 with time_survived := s2.time_survived + dt }
  if 300 ≤ s3.time_survived ∧ Achievement.survivor ∉ s3.achievements then
    ScoreSystem.addAchievement s3 Achievement.survivor
  else s3

/-- Method `ScoreSystem.check_high_score` (game_state.py lines 158-160): the
current score beats the last entry of the table.  Indexing `[-1]` fails
on an empty table, hence the `Option`. -/
def ScoreSystem.checkHighScore (s : ScoreSystem) : Option Bool :=
  s.high_scores.getLast?.map fun e => decide (e.score < s.score)

/-- The comparison `sort(key=lambda x: x["score"], reverse=True)` uses:
descending by score. -/
def hsLe (a b : HighScoreEntry) : Bool := b.score ≤ a.score

/-- Method `ScoreSystem.add_high_score(name)` (game_state.py lines 162-179):
append the current score, sort descending by score, keep the top 10.
`date` is the formatted current date, passed explicitly. -/
def ScoreSystem.addHighScore (s : ScoreSystem) (hsname date : String) : ScoreSystem :=
  let entry : HighScoreEntry := ⟨hsname, s.score, date⟩
  { s with high_scores := ((s.high_scores ++ [entry]).mergeSort hsLe).take 10 }

/-- Method `ScoreSystem.reset` (game_state.py lines 204-220). -/
def ScoreSystem.reset (s : ScoreSystem) : ScoreSystem :=
  { s with score := 0
           combo_count := 0
           combo_timer := 0
           combo_multiplier := 1
           max_combo := 0
           base_multiplier := 1
           level_multiplier := 1
           achievements := []
           achievement_popup_timer := 0
           achievement_popup_text := ""
           asteroids_destroyed := 0
           ufos_destroyed := 0
           time_survived := 0
           waves_completed := 0
           perfect_wave := true }

/-- Method `ScoreSystem.on_player_hit` (game_state.py lines 256-262): clear the
perfect-wave flag and reset the combo chain. -/
def ScoreSystem.onPlayerHit (s : ScoreSystem) : ScoreSystem :=
  { s with perfect_wave := false
           combo_count := 0
           combo_multiplier := 1
           combo_timer := 0 }

/-- The combo-multiplier step function tabulated in spec §4.7:
`{≥10: 4.0, ≥7: 3.0, ≥5: 2.5, ≥3: 2.0, ≥2: 1.5, else 1.0}`. -/
def comboMultiplierOf (n : ℕ) : ℚ :=
  if 10 ≤ n then 4
  else if 7 ≤ n then 3
  else if 5 ≤ n then 5 / 2
  else if 3 ≤ n then 2
  else if 2 ≤ n then 3 / 2
  else 1

/-! Section: Waves (`level_manager.py`) -/

/-- The state of one `Wave` (level_manager.py lines 16-30). -/
structure Wave where
  asteroids_count : ℕ
  ufo_count : ℕ
  asteroid_size_distribution : List ℚ
  boss : Bool
  wname : String
  asteroids_spawned : ℕ
  ufos_spawned : ℕ
  completed : Bool
  asteroid_timer : ℚ
  ufo_timer : ℚ

/-- Method `Wave.is_complete(asteroid_count)` (level_manager.py lines 40-44):
all scheduled asteroids and UFOs spawned and no asteroid alive. -/
def Wave.isComplete (w : Wave) (asteroid_count : ℕ) : Bool :=
  decide (w.asteroids_count ≤ w.asteroids_spawned) &&
    decide (w.ufo_count ≤ w.ufos_spawned) && decide (asteroid_count = 0)

/-- Method `Wave.get_next_asteroid_size` (level_manager.py lines 46-54), with the
`random.random()` draw `roll` explicit and the first two distribution
weights `d0`, `d1` (the only entries the code reads). -/
def getNextAsteroidSize (d0 d1 roll : ℚ) : ℕ :=
  if roll < d0 then ASTEROID_KINDS
  else if roll < d0 + d1 then ASTEROID_KINDS - 1
  else 1

/-- Function `spawn_asteroid(size)` (main.py lines 136-143): the size value is
passed directly as the constructor's `radius` argument.  The random edge
position and the `CircleShape` base velocity are passed explicitly. -/
def spawnAsteroid (pos v : Vec2) (size : ℕ) (t : AsteroidType) : AsteroidState :=
  mkAsteroid pos v (size : ℚ) t

/-! Section: Player ammo (`player.py`, `powerup.py`) -/

/-- The ammo-relevant part of the player state: `current_ammo` and
`ammo_recharge_timer` (player.py lines 23-24), the class-level shot
cooldown `Player.timer` (line 15), and whether the fire-rate power-up is
active (used only for the cooldown length). -/
structure PlayerAmmoState where
  current_ammo : ℤ
  ammo_recharge_timer : ℚ
  shot_timer : ℚ
  fire_rate_active : Bool

/-- Method `Player.shoot()` (player.py lines 168-192) restricted to its effect
on ammo and the cooldown timer: blocked while the cooldown is running or
ammo is exhausted; otherwise consumes one ammo and restarts the cooldown.
Returns the new state and whether a shot was fired. -/
def PlayerAmmoState.shoot (p : PlayerAmmoState) : PlayerAmmoState × Bool :=
  let cooldown : ℚ :=
    if p.fire_rate_active then PLAYER_SHOT_COUNTDOWN * POWERUP_FIRE_RATE_MULTIPLIER
    else PLAYER_SHOT_COUNTDOWN
  if 0 < p.shot_timer then (p, false)
  else if p.current_ammo ≤ 0 then (p, false)
  else ({ p with current_ammo := p.current_ammo - 1, shot_timer := cooldown }, true)

/-- The timed ammo recharge of `Player.update` (player.py lines 139-144):
below the maximum, accumulate `dt`; each time the recharge interval is
reached, add `AMMO_RECHARGE_AMOUNT` capped at `AMMO_MAX_SHOTS`. -/
def PlayerAmmoState.rechargeAmmo (p : PlayerAmmoState) (dt : ℚ) : PlayerAmmoState :=
  if p.current_ammo < AMMO_MAX_SHOTS then
    let t := p.ammo_recharge_timer + dt
    if AMMO_RECHARGE_RATE ≤ t then
      { p with ammo_recharge_timer := 0
               current_ammo := min (p.current_ammo + AMMO_RECHARGE_AMOUNT) AMMO_MAX_SHOTS }
    else { p with ammo_recharge_timer := t }
  else p

/-- Method `PowerUp.apply_effect` for the Ammo kind (powerup.py lines 117-119):
add `POWERUP_AMMO_AMOUNT` capped at `AMMO_MAX_SHOTS`. -/
def PlayerAmmoState.applyAmmoPowerup (p : PlayerAmmoState) : PlayerAmmoState :=
  { p with current_ammo := min (p.current_ammo + POWERUP_AMMO_AMOUNT) AMMO_MAX_SHOTS }

/-! Section: Helper lemmas -/

/-- Numeric value of `ASTEROID_MAX_RADIUS`. -/
lemma ASTEROID_MAX_RADIUS_eq : ASTEROID_MAX_RADIUS = 162 / 5 := by
  norm_num [ASTEROID_MAX_RADIUS, ASTEROID_MIN_RADIUS, ASTEROID_KINDS]

/-- Truncation of an integer embedded in `ℚ` is the integer itself. -/
lemma pytrunc_intCast (n : ℤ) : pytrunc (n : ℚ) = n := by
  unfold pytrunc
  split
  · exact Int.floor_intCast n
  · rw [show (-(n : ℚ)) = ((-n : ℤ) : ℚ) by push_cast; ring, Int.floor_intCast]
    ring

/-- Splitting always reports the asteroid destroyed. -/
lemma split_destroyed (s : AsteroidState) (angle : ℝ) (t : AsteroidType) :
    (split s angle t).destroyed = true := by
  unfold split
  split <;> rfl

/-- Splitting always kills the asteroid. -/
lemma split_alive (s : AsteroidState) (angle : ℝ) (t : AsteroidType) :
    (split s angle t).state.alive = false := by
  unfold split
  split <;> rfl

/-- Below the minimum radius a split produces no children. -/
lemma split_children_small (s : AsteroidState) (angle : ℝ) (t : AsteroidType)
    (h : s.radius < ASTEROID_MIN_RADIUS) : (split s angle t).children = [] := by
  unfold split
  rw [if_pos h]

/-- At or above the minimum radius a split produces the two children of
asteroid.py lines 469-486. -/
lemma split_children_large (s : AsteroidState) (angle : ℝ) (t : AsteroidType)
    (h : ASTEROID_MIN_RADIUS ≤ s.radius) :
    (split s angle t).children =
      [ mkAsteroid s.position (vscale (12 / 10) (rotateDeg s.velocity angle))
          (s.radius - ASTEROID_MIN_RADIUS) t
      , mkAsteroid s.position (rotateDeg s.velocity (-angle))
          (s.radius - ASTEROID_MIN_RADIUS) t ] := by
  unfold split
  rw [if_neg (not_lt.mpr h)]

/-- Adding an achievement never changes the score. -/
@[simp] lemma addAchievement_score (s : ScoreSystem) (a : Achievement) :
    (s.addAchievement a).score = s.score := by
  unfold ScoreSystem.addAchievement
  split <;> rfl

/-- Adding an achievement never changes the combo count. -/
@[simp] lemma addAchievement_combo_count (s : ScoreSystem) (a : Achievement) :
    (s.addAchievement a).combo_count = s.combo_count := by
  unfold ScoreSystem.addAchievement
  split <;> rfl

/-- Adding an achievement never changes the combo timer. -/
@[simp] lemma addAchievement_combo_timer (s : ScoreSystem) (a : Achievement) :
    (s.addAchievement a).combo_timer = s.combo_timer := by
  unfold ScoreSystem.addAchievement
  split <;> rfl

/-- Adding an achievement never changes the combo multiplier. -/
@[simp] lemma addAchievement_combo_multiplier (s : ScoreSystem) (a : Achievement) :
    (s.addAchievement a).combo_multiplier = s.combo_multiplier := by
  unfold ScoreSystem.addAchievement
  split <;> rfl

/-- Adding an achievement never changes the combo timeout. -/
@[simp] lemma addAchievement_combo_timeout (s : ScoreSystem) (a : Achievement) :
    (s.addAchievement a).combo_timeout = s.combo_timeout := by
  unfold ScoreSystem.addAchievement
  split <;> rfl

/-- The added achievement is afterwards present. -/
lemma addAchievement_mem_self (s : ScoreSystem) (a : Achievement) :
    a ∈ (s.addAchievement a).achievements := by
  unfold ScoreSystem.addAchievement
  split
  · assumption
  · exact List.mem_cons_self a s.achievements

/-- Achievements already present survive `add_achievement`. -/
lemma addAchievement_mem_of (s : ScoreSystem) (a x : Achievement)
    (h : x ∈ s.achievements) : x ∈ (s.addAchievement a).achievements := by
  unfold ScoreSystem.addAchievement
  split
  · exact h
  · exact List.mem_cons_of_mem a h

/-- Score delta of `add_score` (game_state.py lines 101-109). -/
lemma addScore_score (s : ScoreSystem) (points lm : ℚ) :
    (s.addScore points lm).score
      = s.score + pytrunc (points * (s.base_multiplier * s.combo_multiplier * lm)) := by
  simp only [ScoreSystem.addScore]
  split_ifs <;> simp

/-- Combo-count advance of `add_score` (game_state.py line 112). -/
lemma addScore_combo_count (s : ScoreSystem) (points lm : ℚ) :
    (s.addScore points lm).combo_count = s.combo_count + 1 := by
  simp only [ScoreSystem.addScore]
  split_ifs <;> simp

/-- Combo-timer reset of `add_score` (game_state.py line 113). -/
lemma addScore_combo_timer (s : ScoreSystem) (points lm : ℚ) :
    (s.addScore points lm).combo_timer = s.combo_timeout := by
  simp only [ScoreSystem.addScore]
  split_ifs <;> simp

/-- The combo multiplier recomputed by `add_score` is the step function
of the new combo count (game_state.py lines 119-133). -/
lemma addScore_combo_multiplier (s : ScoreSystem) (points lm : ℚ) :
    (s.addScore points lm).combo_multiplier = comboMultiplierOf (s.combo_count + 1) := by
  simp only [ScoreSystem.addScore, comboMultiplierOf]
  split_ifs <;> simp

/-- Achievements already present survive `add_score`. -/
lemma addScore_mem_achievements (s : ScoreSystem) (points lm : ℚ) (x : Achievement)
    (h : x ∈ s.achievements) : x ∈ (s.addScore points lm).achievements := by
  simp only [ScoreSystem.addScore]
  split_ifs <;> first
    | exact h
    | exact addAchievement_mem_of _ _ _ h

/-- In the branch where the new combo count lands in `[5, 7)`,
`add_score` awards COMBO_MASTER (game_state.py lines 124-127). -/
lemma addScore_comboMaster (s : ScoreSystem) (points lm : ℚ)
    (h5 : 5 ≤ s.combo_count + 1) (h7 : s.combo_count + 1 < 7) :
    Achievement.comboMaster ∈ (s.addScore points lm).achievements := by
  simp only [ScoreSystem.addScore]
  rw [if_neg (by omega), if_neg (by omega), if_pos h5]
  exact addAchievement_mem_self _ _

/-- The effect of `ScoreSystem.update` on the combo fields: either the
timer has not expired and both are unchanged, or the combo was reset
(game_state.py lines 139-145). -/
lemma update_combo (s : ScoreSystem) (dt : ℚ) :
    ((s.update dt).combo_count = s.combo_count ∧
      (s.update dt).combo_multiplier = s.combo_multiplier) ∨
    ((s.update dt).combo_count = 0 ∧ (s.update dt).combo_multiplier = 1) := by
  simp only [ScoreSystem.update]
  split_ifs <;> simp

/-- Achievements already present survive `ScoreSystem.update`. -/
lemma update_mem_achievements (s : ScoreSystem) (dt : ℚ) (x : Achievement)
    (h : x ∈ s.achievements) : x ∈ (s.update dt).achievements := by
  simp only [ScoreSystem.update]
  split_ifs <;> first
    | exact h
    | exact addAchievement_mem_of _ _ _ h

/-- The combo-multiplier step function takes value 1 at combo count 0. -/
lemma comboMultiplierOf_zero : comboMultiplierOf 0 = 1 := by
  simp [comboMultiplierOf]

/-! Section: Claim theorems -/

/-- C1: for every asteroid, `split()` removes it from the world; below
`ASTEROID_MIN_RADIUS` it creates zero children; otherwise it creates
exactly two children at the parent's position, each with radius equal to
the parent's radius minus `ASTEROID_MIN_RADIUS`, with velocities the
parent's velocity rotated by `+θ` scaled by 1.2 and rotated by `-θ`
unscaled, for some `θ ∈ [20, 50]` degrees (the support of the
`random.uniform(20, 50)` draw). -/
theorem C1_split_spec (s : AsteroidState) (θ : ℝ) (t : AsteroidType) :
    (split s θ t).state.alive = false ∧
    (s.radius < ASTEROID_MIN_RADIUS → (split s θ t).children = []) ∧
    (ASTEROID_MIN_RADIUS ≤ s.radius →
      (split s θ t).children.length = 2 ∧
      (∀ c ∈ (split s θ t).children,
        c.radius = s.radius - ASTEROID_MIN_RADIUS ∧ c.position = s.position) ∧
      (20 ≤ θ → θ ≤ 50 →
        ∃ θ' : ℝ, 20 ≤ θ' ∧ θ' ≤ 50 ∧
          (split s θ t).children =
            [ mkAsteroid s.position (vscale (12 / 10) (rotateDeg s.velocity θ'))
                (s.radius - ASTEROID_MIN_RADIUS) t
            , mkAsteroid s.position (rotateDeg s.velocity (-θ'))
                (s.radius - ASTEROID_MIN_RADIUS) t ])) := by
  refine ⟨split_alive s θ t, split_children_small s θ t, fun h => ?_⟩
  rw [split_children_large s θ t h]
  refine ⟨rfl, ?_, fun h20 h50 => ⟨θ, h20, h50, rfl⟩⟩
  intro c hc
  simp only [List.mem_cons, List.not_mem_nil, or_false] at hc
  rcases hc with rfl | rfl <;> exact ⟨rfl, rfl⟩

/-- Witness for C1 at a concrete asteroid of radius 30 and a draw of 30
degrees. -/
theorem C1_split_spec_witness :
    (split (⟨(0, 0), (1, 0), 30, AsteroidType.regular, 1, true⟩ : AsteroidState)
        30 AsteroidType.regular).children.length = 2 :=
  ((C1_split_spec ⟨(0, 0), (1, 0), 30, AsteroidType.regular, 1, true⟩
      30 AsteroidType.regular).2.2 (by norm_num [ASTEROID_MIN_RADIUS])).1

/-- C2 counterexample: the claim asserts that each of the three base
tiers is attained for some radius, in particular the medium tier; but no
radius selects `SCORE_MEDIUM_ASTEROID`, because any radius reaching the
medium threshold `2 * ASTEROID_MIN_RADIUS = 36` already satisfies the
earlier large-tier test against `ASTEROID_MAX_RADIUS = 32.4`. -/
theorem C2_counterexample : ¬ ∃ r : ℚ, baseScore r = SCORE_MEDIUM_ASTEROID := by
  rintro ⟨r, hr⟩
  unfold baseScore at hr
  split_ifs at hr with h1 h2
  · exact absurd hr (by decide)
  · refine h1 ?_
    rw [ASTEROID_MAX_RADIUS_eq]
    have h36 : (18 : ℚ) * 2 ≤ r := by
      simpa [ASTEROID_MIN_RADIUS] using h2
    linarith
  · exact absurd hr (by decide)

/-- C2 (amended): for every asteroid, `score_value` equals the size-tier
base chosen by radius against the two fixed thresholds multiplied by the
type multiplier (1.5 for Explosive, 2 for Armored, 1 for Regular) and
truncated to integer; the large and small base tiers are attained for
some radius, but the medium tier is attained for no radius, because the
medium threshold `2 * ASTEROID_MIN_RADIUS = 36` exceeds
`ASTEROID_MAX_RADIUS = 32.4`. -/
theorem C2_score_value (r : ℚ) (t : AsteroidType) :
    scoreValue r t = specScoreValue r t ∧
    (∃ r' : ℚ, baseScore r' = SCORE_LARGE_ASTEROID) ∧
    (∃ r' : ℚ, baseScore r' = SCORE_SMALL_ASTEROID) ∧
    ∀ r' : ℚ, baseScore r' ≠ SCORE_MEDIUM_ASTEROID := by
  refine ⟨?_, ⟨100, ?_⟩, ⟨0, ?_⟩, fun r' => ?_⟩
  · cases t
    · simp only [scoreValue, specScoreValue, baseScore]
      split_ifs <;> rw [mul_one, pytrunc_intCast]
    · simp only [scoreValue, specScoreValue, baseScore]
    · simp only [scoreValue, specScoreValue, baseScore]
  · rw [baseScore, if_pos (by rw [ASTEROID_MAX_RADIUS_eq]; norm_num)]
  · rw [baseScore, if_neg (by rw [ASTEROID_MAX_RADIUS_eq]; norm_num),
      if_neg (by norm_num [ASTEROID_MIN_RADIUS])]
  · intro hr
    unfold baseScore at hr
    split_ifs at hr with h1 h2
    · exact absurd hr (by decide)
    · refine h1 ?_
      rw [ASTEROID_MAX_RADIUS_eq]
      have h36 : (18 : ℚ) * 2 ≤ r' := by
        simpa [ASTEROID_MIN_RADIUS] using h2
      linarith
    · exact absurd hr (by decide)

/-- Witness for C2 (amended) at radius 40 and the regular type. -/
theorem C2_score_value_witness :
    scoreValue 40 AsteroidType.regular = specScoreValue 40 AsteroidType.regular :=
  (C2_score_value 40 AsteroidType.regular).1

/-- C3: `add_score(points, m)` increases the score by exactly
`int(points * base_multiplier * combo_multiplier * m)` with the combo
multiplier taken before this call's combo increment, then increments
`combo_count` and resets `combo_timer` to the fixed timeout; in
particular from `combo_count = 0` with both multipliers at `1.0`,
`add_score(100, 1.0)` adds exactly 100. -/
theorem C3_add_score (s : ScoreSystem) (points lm : ℚ) :
    ((s.addScore points lm).score
        = s.score + pytrunc (points * s.base_multiplier * s.combo_multiplier * lm) ∧
      (s.addScore points lm).combo_count = s.combo_count + 1 ∧
      (s.addScore points lm).combo_timer = s.combo_timeout) ∧
    (s.combo_count = 0 → s.combo_multiplier = 1 → s.base_multiplier = 1 →
      (s.addScore 100 1).score = s.score + 100) := by
  constructor
  · refine ⟨?_, addScore_combo_count s points lm, addScore_combo_timer s points lm⟩
    rw [addScore_score s points lm]
    ring_nf
  · intro _ hcm hbm
    rw [addScore_score s 100 1, hcm, hbm]
    norm_num
    rw [show (100 : ℚ) = ((100 : ℤ) : ℚ) by norm_num, pytrunc_intCast]

/-- Witness for C3 at the freshly initialised score system. -/
theorem C3_add_score_witness :
    (ScoreSystem.init.addScore 100 1).score = ScoreSystem.init.score + 100 :=
  (C3_add_score ScoreSystem.init 100 1).2 rfl rfl rfl

/-- The combo invariant of C4: the combo multiplier is the step function
of the combo count, and any combo count of at least 5 comes with the
COMBO_MASTER achievement unlocked. -/
def ComboInv (s : ScoreSystem) : Prop :=
  s.combo_multiplier = comboMultiplierOf s.combo_count ∧
    (5 ≤ s.combo_count → Achievement.comboMaster ∈ s.achievements)

/-- C4: the freshly initialised score system satisfies the combo
invariant, and every score-system operation (`add_score`, `update`,
`reset`, `on_player_hit`) preserves it: afterwards `combo_multiplier`
equals the step function `{≥10: 4.0, ≥7: 3.0, ≥5: 2.5, ≥3: 2.0, ≥2: 1.5,
else 1.0}` of `combo_count`, and whenever `combo_count` reaches a value
of at least 5 via `add_score` the COMBO_MASTER achievement is present. -/
theorem C4_combo_invariant (s : ScoreSystem) (points lm dt : ℚ) (hInv : ComboInv s) :
    ComboInv ScoreSystem.init ∧
    ComboInv (s.addScore points lm) ∧
    ComboInv (s.update dt) ∧
    ComboInv s.reset ∧
    ComboInv s.onPlayerHit := by
  refine ⟨⟨comboMultiplierOf_zero.symm, fun h => absurd h (by decide)⟩, ⟨?_, ?_⟩, ?_, ?_, ?_⟩
  · rw [addScore_combo_multiplier s points lm, addScore_combo_count s points lm]
  · rw [addScore_combo_count s points lm]
    intro h5
    by_cases h7 : s.combo_count + 1 < 7
    · exact addScore_comboMaster s points lm h5 h7
    · exact addScore_mem_achievements s points lm _ (hInv.2 (by omega))
  · rcases update_combo s dt with ⟨hc, hm⟩ | ⟨hc, hm⟩
    · refine ⟨by rw [hm, hc, hInv.1], fun h5 => ?_⟩
      exact update_mem_achievements s dt _ (hInv.2 (hc ▸ h5))
    · exact ⟨by rw [hm, hc, comboMultiplierOf_zero], fun h5 => absurd h5 (by omega)⟩
  · exact ⟨by simp [ScoreSystem.reset, comboMultiplierOf_zero], fun h5 => by
      simp [ScoreSystem.reset] at h5⟩
  · exact ⟨by simp [ScoreSystem.onPlayerHit, comboMultiplierOf_zero], fun h5 => by
      simp [ScoreSystem.onPlayerHit] at h5⟩

/-- Witness for C4 at the freshly initialised score system. -/
theorem C4_combo_invariant_witness : ComboInv (ScoreSystem.init.addScore 100 1) :=
  (C4_combo_invariant ScoreSystem.init 100 1 0
      ⟨comboMultiplierOf_zero.symm, fun h => absurd h (by decide)⟩).2.1

/-- C6: `is_complete(n)` is true if and only if all scheduled asteroids
and UFOs have been spawned and the live asteroid count `n` is zero; in
particular it is false for every positive live asteroid count, and no
count of surviving UFOs enters the test. -/
theorem C6_wave_is_complete (w : Wave) (n : ℕ) :
    (w.isComplete n = true ↔
      w.asteroids_count ≤ w.asteroids_spawned ∧
        w.ufo_count ≤ w.ufos_spawned ∧ n = 0) ∧
    w.isComplete (n + 1) = false := by
  constructor
  · simp [Wave.isComplete, and_assoc]
  · simp [Wave.isComplete]

/-- C10: `on_player_hit()` clears the perfect-wave flag and resets the
combo chain (count 0, multiplier 1.0, timer 0) while leaving every other
field of the score system unchanged. -/
theorem C10_on_player_hit (s : ScoreSystem) :
    s.onPlayerHit.perfect_wave = false ∧
    s.onPlayerHit.combo_count = 0 ∧
    s.onPlayerHit.combo_multiplier = 1 ∧
    s.onPlayerHit.combo_timer = 0 ∧
    s.onPlayerHit.score = s.score ∧
    s.onPlayerHit.high_scores = s.high_scores ∧
    s.onPlayerHit.combo_timeout = s.combo_timeout ∧
    s.onPlayerHit.max_combo = s.max_combo ∧
    s.onPlayerHit.base_multiplier = s.base_multiplier ∧
    s.onPlayerHit.level_multiplier = s.level_multiplier ∧
    s.onPlayerHit.achievements = s.achievements ∧
    s.onPlayerHit.achievement_popup_timer = s.achievement_popup_timer ∧
    s.onPlayerHit.achievement_popup_text = s.achievement_popup_text ∧
    s.onPlayerHit.asteroids_destroyed = s.asteroids_destroyed ∧
    s.onPlayerHit.ufos_destroyed = s.ufos_destroyed ∧
    s.onPlayerHit.time_survived = s.time_survived ∧
    s.onPlayerHit.waves_completed = s.waves_completed :=
  ⟨rfl, rfl, rfl, rfl, rfl, rfl, rfl, rfl, rfl, rfl, rfl, rfl, rfl, rfl, rfl, rfl, rfl⟩

/-- State reached after `n < K` hits on an armored asteroid that started
with `K` hits remaining: only the hit counter has moved. -/
lemma hitTimes_armored_state (s : AsteroidState) (θ : ℝ) (t : AsteroidType) (K : ℕ)
    (hk : s.asteroid_kind = AsteroidType.armored) (hh : s.hits_remaining = (K : ℤ)) :
    ∀ n : ℕ, n < K →
      hitTimes s θ t n = { s with hits_remaining := (K : ℤ) - (n : ℤ) } := by
  intro n
  induction n with
  | zero =>
    intro _
    simp only [hitTimes, Nat.cast_zero, sub_zero, ← hh]
  | succ m ih =>
    intro hlt
    have hm : m < K := Nat.lt_of_succ_lt hlt
    simp only [hitTimes, ih hm, hit]
    rw [if_pos (by simpa using hk), if_pos (by omega)]
    simp only
    congr 1
    push_cast
    ring

/-- C7: an armored asteroid with `hits_remaining = K ≥ 1` absorbs each of
the first `K - 1` calls to `hit()` (returning false, without invoking
`split()`), and the `K`-th call invokes `split()` and returns true:
exactly `K` hits are required for destruction. -/
theorem C7_armored_hits (s : AsteroidState) (θ : ℝ) (t : AsteroidType) (K : ℕ)
    (hk : s.asteroid_kind = AsteroidType.armored) (hh : s.hits_remaining = (K : ℤ))
    (h1 : 1 ≤ K) :
    (∀ n : ℕ, n + 1 < K →
      (hit (hitTimes s θ t n) θ t).destroyed = false ∧
      (hit (hitTimes s θ t n) θ t).splitCalled = false) ∧
    (hit (hitTimes s θ t (K - 1)) θ t).destroyed = true ∧
    (hit (hitTimes s θ t (K - 1)) θ t).splitCalled = true := by
  constructor
  · intro n hn
    rw [hitTimes_armored_state s θ t K hk hh n (by omega)]
    simp only [hit]
    rw [if_pos (by simpa using hk), if_pos (by omega)]
    exact ⟨rfl, rfl⟩
  · rw [hitTimes_armored_state s θ t K hk hh (K - 1) (by omega)]
    simp only [hit]
    rw [if_pos (by simpa using hk), if_neg (by omega)]
    exact ⟨split_destroyed _ _ _, rfl⟩

/-- Witness for C7 at a concrete armored asteroid with
`hits_remaining = ARMORED_HITS_REQUIRED = 3`. -/
theorem C7_armored_hits_witness :
    (hit (hitTimes (⟨(0, 0), (0, 0), 20, AsteroidType.armored, 3, true⟩ : AsteroidState)
        0 AsteroidType.regular 2) 0 AsteroidType.regular).destroyed = true :=
  (C7_armored_hits ⟨(0, 0), (0, 0), 20, AsteroidType.armored, 3, true⟩
      0 AsteroidType.regular 3 rfl rfl (by norm_num)).2.1

/-- Evaluation of `shoot` while the cooldown timer is running: nothing
happens and no shot is fired (player.py lines 174-175). -/
lemma shoot_cooldown (p : PlayerAmmoState) (h : 0 < p.shot_timer) :
    p.shoot = (p, false) := by
  simp only [PlayerAmmoState.shoot]
  rw [if_pos h]

/-- Evaluation of `shoot` with no ammo: nothing happens and no shot is
fired (player.py lines 177-181). -/
lemma shoot_empty (p : PlayerAmmoState) (h1 : ¬ 0 < p.shot_timer)
    (h2 : p.current_ammo ≤ 0) : p.shoot = (p, false) := by
  simp only [PlayerAmmoState.shoot]
  rw [if_neg h1, if_pos h2]

/-- Evaluation of `shoot` when it fires: one ammo is consumed and the
cooldown restarts (player.py lines 183-186). -/
lemma shoot_fires (p : PlayerAmmoState) (h1 : ¬ 0 < p.shot_timer)
    (h2 : ¬ p.current_ammo ≤ 0) :
    p.shoot =
      ({ p with current_ammo := p.current_ammo - 1
                shot_timer :=
                  if p.fire_rate_active then
                    PLAYER_SHOT_COUNTDOWN * POWERUP_FIRE_RATE_MULTIPLIER
                  else PLAYER_SHOT_COUNTDOWN }, true) := by
  simp only [PlayerAmmoState.shoot]
  rw [if_neg h1, if_neg h2]

/-- C8: under the invariant `0 ≤ current_ammo ≤ AMMO_MAX_SHOTS`, every
ammo mutation preserves it: `shoot()` fires exactly when the cooldown is
over and ammo is positive, consuming exactly one, and leaves ammo
untouched otherwise (in particular at ammo 0 it never fires); the timed
recharge and the Ammo power-up add their fixed amounts capped at
`AMMO_MAX_SHOTS`; ammo never goes negative or above the maximum. -/
theorem C8_ammo_invariant (p : PlayerAmmoState) (dt : ℚ)
    (h0 : 0 ≤ p.current_ammo) (hmax : p.current_ammo ≤ AMMO_MAX_SHOTS) :
    (0 ≤ p.shoot.1.current_ammo ∧ p.shoot.1.current_ammo ≤ AMMO_MAX_SHOTS) ∧
    (0 ≤ (p.rechargeAmmo dt).current_ammo ∧
      (p.rechargeAmmo dt).current_ammo ≤ AMMO_MAX_SHOTS) ∧
    (0 ≤ p.applyAmmoPowerup.current_ammo ∧
      p.applyAmmoPowerup.current_ammo ≤ AMMO_MAX_SHOTS) ∧
    (p.current_ammo = 0 → p.shoot.2 = false ∧ p.shoot.1.current_ammo = p.current_ammo) ∧
    (p.shoot.2 = true ↔ p.shot_timer ≤ 0 ∧ 0 < p.current_ammo) ∧
    (p.shoot.2 = true → p.shoot.1.current_ammo = p.current_ammo - 1) ∧
    (p.shoot.2 = false → p.shoot.1.current_ammo = p.current_ammo) := by
  have hrecharge : 0 ≤ (p.rechargeAmmo dt).current_ammo ∧
      (p.rechargeAmmo dt).current_ammo ≤ AMMO_MAX_SHOTS := by
    simp only [PlayerAmmoState.rechargeAmmo, AMMO_MAX_SHOTS, AMMO_RECHARGE_AMOUNT] at *
    split_ifs <;> refine ⟨?_, ?_⟩ <;> dsimp only <;> omega
  have hpowerup : 0 ≤ p.applyAmmoPowerup.current_ammo ∧
      p.applyAmmoPowerup.current_ammo ≤ AMMO_MAX_SHOTS := by
    simp only [PlayerAmmoState.applyAmmoPowerup, AMMO_MAX_SHOTS, POWERUP_AMMO_AMOUNT] at *
    refine ⟨?_, ?_⟩ <;> dsimp only <;> omega
  by_cases ht : 0 < p.shot_timer
  · rw [shoot_cooldown p ht]
    refine ⟨⟨h0, hmax⟩, hrecharge, hpowerup, fun _ => ⟨rfl, rfl⟩, ?_, ?_, fun _ => rfl⟩
    · constructor
      · intro h
        simp at h
      · rintro ⟨hle, -⟩
        exact absurd ht (not_lt.mpr hle)
    · intro h
      simp at h
  · by_cases ha : p.current_ammo ≤ 0
    · rw [shoot_empty p ht ha]
      refine ⟨⟨h0, hmax⟩, hrecharge, hpowerup, fun _ => ⟨rfl, rfl⟩, ?_, ?_, fun _ => rfl⟩
      · constructor
        · intro h
          simp at h
        · rintro ⟨-, hpos⟩
          exact absurd hpos (not_lt.mpr ha)
      · intro h
        simp at h
    · rw [shoot_fires p ht ha]
      refine ⟨⟨by dsimp only; omega, by dsimp only; omega⟩, hrecharge, hpowerup,
        fun h => absurd h (by omega), ?_, fun _ => rfl, ?_⟩
      · exact ⟨fun _ => ⟨not_lt.mp ht, by omega⟩, fun _ => rfl⟩
      · intro h
        simp at h

/-- Witness for C8 at the freshly spawned player's ammo state
(`AMMO_INITIAL = 25`, cooldown idle). -/
theorem C8_ammo_invariant_witness :
    0 ≤ (PlayerAmmoState.shoot ⟨25, 0, 0, false⟩).1.current_ammo ∧
      (PlayerAmmoState.shoot ⟨25, 0, 0, false⟩).1.current_ammo ≤ AMMO_MAX_SHOTS :=
  (C8_ammo_invariant ⟨25, 0, 0, false⟩ 0 (by norm_num)
      (by norm_num [AMMO_MAX_SHOTS])).1

/-- Radii below `ASTEROID_MAX_RADIUS` score the small tier: the medium
threshold `2 * ASTEROID_MIN_RADIUS = 36` lies above
`ASTEROID_MAX_RADIUS = 32.4`. -/
lemma baseScore_small (r : ℚ) (h : r < ASTEROID_MAX_RADIUS) :
    baseScore r = SCORE_SMALL_ASTEROID := by
  rw [ASTEROID_MAX_RADIUS_eq] at h
  rw [baseScore, if_neg, if_neg]
  · rw [ASTEROID_MIN_RADIUS]
    intro hc
    linarith
  · rw [ASTEROID_MAX_RADIUS_eq]
    exact not_le.mpr h

/-- C9: the asteroid sizes the level manager requests are the size
indices `1`, `2` or `3` themselves, and `spawn_asteroid` passes the index
directly as the constructor's radius; since every such radius is below
`ASTEROID_MIN_RADIUS = 18`, a `split()` of such an asteroid produces zero
children (terminal destruction) and its size-tier base score is the small
tier. -/
theorem C9_spawned_asteroid_sizes (d0 d1 roll : ℚ) (pos v : Vec2) (θ : ℝ)
    (t tc : AsteroidType) :
    (getNextAsteroidSize d0 d1 roll = 1 ∨ getNextAsteroidSize d0 d1 roll = 2 ∨
      getNextAsteroidSize d0 d1 roll = 3) ∧
    (spawnAsteroid pos v (getNextAsteroidSize d0 d1 roll) t).radius
      = (getNextAsteroidSize d0 d1 roll : ℚ) ∧
    (spawnAsteroid pos v (getNextAsteroidSize d0 d1 roll) t).radius < ASTEROID_MIN_RADIUS ∧
    (split (spawnAsteroid pos v (getNextAsteroidSize d0 d1 roll) t) θ tc).children = [] ∧
    baseScore (spawnAsteroid pos v (getNextAsteroidSize d0 d1 roll) t).radius
      = SCORE_SMALL_ASTEROID := by
  have hmem : getNextAsteroidSize d0 d1 roll = 1 ∨ getNextAsteroidSize d0 d1 roll = 2 ∨
      getNextAsteroidSize d0 d1 roll = 3 := by
    unfold getNextAsteroidSize ASTEROID_KINDS
    split_ifs <;> simp
  have hradius : (spawnAsteroid pos v (getNextAsteroidSize d0 d1 roll) t).radius
      = (getNextAsteroidSize d0 d1 roll : ℚ) := rfl
  have hsmall : (spawnAsteroid pos v (getNextAsteroidSize d0 d1 roll) t).radius
      < ASTEROID_MIN_RADIUS := by
    rw [hradius]
    rcases hmem with h | h | h <;> rw [h] <;> norm_num [ASTEROID_MIN_RADIUS]
  have hmax : (spawnAsteroid pos v (getNextAsteroidSize d0 d1 roll) t).radius
      < ASTEROID_MAX_RADIUS := by
    rw [hradius, ASTEROID_MAX_RADIUS_eq]
    rcases hmem with h | h | h <;> rw [h] <;> norm_num
  exact ⟨hmem, hradius, hsmall, split_children_small _ _ _ hsmall, baseScore_small _ hmax⟩

/-- Sorting with the descending-score comparison yields a list that is
pairwise descending in score. -/
lemma mergeSort_hsLe_pairwise (l : List HighScoreEntry) :
    ((l.mergeSort hsLe).Pairwise fun a b => b.score ≤ a.score) := by
  have htrans : ∀ a b c : HighScoreEntry, hsLe a b → hsLe b c → hsLe a c := by
    intro a b c hab hbc
    simp only [hsLe, decide_eq_true_eq] at *
    exact le_trans hbc hab
  have htotal : ∀ a b : HighScoreEntry, hsLe a b || hsLe b a := by
    intro a b
    simp only [hsLe, Bool.or_eq_true, decide_eq_true_eq]
    exact le_total b.score a.score
  have h := @List.sorted_mergeSort HighScoreEntry hsLe htrans htotal l
  exact h.imp (fun hab => by simpa [hsLe] using hab)

/-- After `add_high_score` the table has at most 10 entries and is
sorted descending by score. -/
lemma addHighScore_len_sorted (s : ScoreSystem) (n d : String) :
    (s.addHighScore n d).high_scores.length ≤ 10 ∧
      ((s.addHighScore n d).high_scores.Pairwise fun a b => b.score ≤ a.score) := by
  constructor
  · simp [ScoreSystem.addHighScore]
  · exact (mergeSort_hsLe_pairwise _).sublist (List.take_sublist _ _)

/-- In a descending-sorted table the last entry has the minimal score. -/
lemma getLast_score_le (l : List HighScoreEntry)
    (hp : l.Pairwise fun a b => b.score ≤ a.score) (hne : l ≠ []) :
    ∀ e ∈ l, (l.getLast hne).score ≤ e.score := by
  induction l with
  | nil => exact absurd rfl hne
  | cons a t ih =>
    intro e he
    cases t with
    | nil =>
      simp only [List.mem_singleton] at he
      subst he
      rfl
    | cons b t2 =>
      rw [List.getLast_cons (by simp)]
      rcases List.mem_cons.mp he with rfl | he2
      · have hmem := List.getLast_mem (l := b :: t2) (by simp)
        exact (List.pairwise_cons.mp hp).1 _ hmem
      · exact ih (List.pairwise_cons.mp hp).2 (by simp) e he2

/-- C5: after any `add_high_score(name)` the table contains at most 10
entries and is sorted descending by score; and on a nonempty sorted
table, `check_high_score()` returns true exactly when the current score
strictly beats the lowest score in the table. -/
theorem C5_high_scores (s : ScoreSystem) (n d : String) :
    ((s.addHighScore n d).high_scores.length ≤ 10 ∧
      ((s.addHighScore n d).high_scores.Pairwise fun a b => b.score ≤ a.score)) ∧
    (s.high_scores ≠ [] →
      (s.high_scores.Pairwise fun a b => b.score ≤ a.score) →
      (s.checkHighScore = some true ↔ ∃ e ∈ s.high_scores, e.score < s.score)) := by
  refine ⟨addHighScore_len_sorted s n d, fun hne hp => ?_⟩
  unfold ScoreSystem.checkHighScore
  rw [List.getLast?_eq_getLast _ hne]
  constructor
  · intro h
    have hlt : (s.high_scores.getLast hne).score < s.score := by
      simpa using h
    exact ⟨_, List.getLast_mem hne, hlt⟩
  · rintro ⟨e, he, hlt⟩
    have hle := getLast_score_le _ hp hne e he
    simpa using lt_of_le_of_lt hle hlt

/-- Witness for C5 at the freshly initialised score system and its
default high-score table. -/
theorem C5_high_scores_witness :
    ScoreSystem.init.checkHighScore = some true ↔
      ∃ e ∈ ScoreSystem.init.high_scores, e.score < ScoreSystem.init.score :=
  (C5_high_scores ScoreSystem.init "AAA" "2025-01-01").2 (by decide) (by decide)
